import Mathlib

/-!
Shallow embedding of the rate-limit probing engine of this repository
(`rate_limiter_checker.py`) and of the batched metadata lookup of
`appstore_search_rankings.py`, together with theorems settling the
specification claims about them.

Modelling conventions:
- Python floats are embedded as rationals (`ℚ`); Python `int(x)` (truncation
  toward zero) is `pyInt`.
- Python strings use `String`, except response bodies which are `List Char`
  (a Python `str` is a sequence of code points; slicing `[:200]` is
  `List.take 200`).
- The network is a parameter: each HTTP call's result is a `NetResult`
  value (either a received response or a raised transport exception), so a
  run over `n` requests takes a function `ℕ → IterEnv` supplying, per
  iteration, the network behaviour, the wall-clock timestamp at call issue,
  and the measured elapsed time of the iteration body.
- `print` statements and the actual `time.sleep` side effect are not state:
  the computed sleep duration of each iteration is recorded in the returned
  `IterRecord` (the code calls `time.sleep` exactly when this value is
  positive).
- The global `CONFIG` dictionary only influences the recorded outcome
  through `params["term"]` (the default key); it is passed as `cfg_term`.
-/

/-- Char-list check: does the second list start with the first?
(Building block for Python's substring operator `x in s`.) -/
def startsWithChars : List Char → List Char → Bool
  | [], _ => true
  | _ :: _, [] => false
  | a :: as, b :: bs => a == b && startsWithChars as bs

/-- Python `x in s` substring containment on code-point lists. -/
def hasSubChars (needle : List Char) : List Char → Bool
  | [] => needle.isEmpty
  | c :: rest => startsWithChars needle (c :: rest) || hasSubChars needle rest

/-- Python `int(x)` for a float modelled as `ℚ`: truncation toward zero. -/
def pyInt (q : ℚ) : ℤ := if 0 ≤ q then ⌊q⌋ else ⌈q⌉

/-- The vocabulary used to filter rate-limit headers
(`["rate", "limit", "remaining", "reset", "retry"]` in `send_request`). -/
def RL_HEADER_WORDS : List String := ["rate", "limit", "remaining", "reset", "retry"]

/-- `any(x in kl for x in [...])` with `kl = key.lower()` in `send_request`. -/
def is_rl_header (key : String) : Bool :=
  RL_HEADER_WORDS.any (fun x => hasSubChars x.toList key.toLower.toList)

/-- `RequestResult` dataclass of `rate_limiter_checker.py`. -/
structure RequestResult where
  status_code : ℕ
  latency_ms : ℚ
  timestamp : ℚ
  headers : List (String × String)
  term : String
  error : Option String
  body_preview : List Char
deriving DecidableEq

/-- Result of one network call attempt: either a received HTTP response
(with its status, headers, body text and measured latency in ms, already
rounded as the code rounds it), or a raised exception message. -/
inductive NetResult where
  | response (status_code : ℕ) (headers : List (String × String))
      (text : List Char) (latency_ms : ℚ)
  | failure (msg : String)
deriving DecidableEq

/-- `send_request(config, request_num, term)` of `rate_limiter_checker.py`.

`cfg_term` is `config["params"]["term"]`; `net` is the network's behaviour
for this call; `ts` is `time.time()` at entry. On an exception the function
returns status 0, latency 0 and the error message; on a response it records
the status, latency, the filtered rate-limit headers and, when the status
is not 200, the first 200 characters of the body. The recorded term is
`term or params.get("term", "")` after `params["term"]` was overridden,
which collapses to `term.getD cfg_term` (and `term.getD ""` on the error
path), since an explicitly passed empty term also leaves `""` in `params`. -/
def send_request (cfg_term : String) (net : NetResult) (ts : ℚ)
    (term : Option String) : RequestResult :=
  match net with
  | .failure e =>
      { status_code := 0, latency_ms := 0, timestamp := ts, headers := [],
        term := term.getD "", error := some e, body_preview := [] }
  | .response sc hdrs text lat =>
      { status_code := sc, latency_ms := lat, timestamp := ts,
        headers := hdrs.filter (fun kv => is_rl_header kv.1),
        term := term.getD cfg_term, error := none,
        body_preview := if sc ≠ 200 then text.take 200 else [] }

/-- The four conclusions the SAME-vs-UNIQUE comparison can print. -/
inductive Classification where
  | PerKeyLimit
  | HybridLimit
  | PerClientLimit
  | Inconclusive
deriving DecidableEq

/-- The classification branch of `run_same_vs_unique_test`
(lines 448-457): `none` means no conclusion line is printed. -/
def classify_same_vs_unique (same_limited unique_limited : ℕ) :
    Option Classification :=
  if unique_limited = 0 ∧ 0 < same_limited then some .PerKeyLimit
  else if 0 < unique_limited ∧ 0 < same_limited then
    if (unique_limited : ℚ) < (same_limited : ℚ) * 0.5 then some .HybridLimit
    else some .PerClientLimit
  else if unique_limited = 0 ∧ same_limited = 0 then some .Inconclusive
  else none

/-- One entry of the `defaultdict(lambda: {"success": 0, "limited": 0,
"total": 0})` used by `TestReport.per_term_stats`. -/
structure TermStats where
  success : ℕ
  limited : ℕ
  total : ℕ
deriving DecidableEq

/-- Loop body of `TestReport.per_term_stats`: process one result `r`,
updating the entry of its term (the defaultdict is modelled as a total map
with default `⟨0, 0, 0⟩`). -/
def pts_step (m : String → TermStats) (r : RequestResult) : String → TermStats :=
  fun t =>
    if t = r.term then
      let cur := m t
      let cur := { cur with total := cur.total + 1 }
      if 200 ≤ r.status_code ∧ r.status_code < 300 then
        { cur with success := cur.success + 1 }
      else if r.status_code = 429 ∨ r.status_code = 403 then
        { cur with limited := cur.limited + 1 }
      else cur
    else m t

/-- `TestReport` dataclass: the ordered outcome sequence plus the
bracketing times. -/
structure TestReport where
  results : List RequestResult
  start_time : ℚ
  end_time : ℚ

/-- `TestReport.duration`. -/
def TestReport.duration (rep : TestReport) : ℚ := rep.end_time - rep.start_time

/-- `TestReport.success_count`: outcomes with a 2xx status. -/
def TestReport.success_count (rep : TestReport) : ℕ :=
  rep.results.countP (fun r => 200 ≤ r.status_code ∧ r.status_code < 300)

/-- `TestReport.rate_limited_count`: outcomes with status 429 or 403. -/
def TestReport.rate_limited_count (rep : TestReport) : ℕ :=
  rep.results.countP (fun r => r.status_code = 429 ∨ r.status_code = 403)

/-- `TestReport.per_term_stats`: fold the results through `pts_step`
starting from the empty defaultdict. -/
def TestReport.per_term_stats (rep : TestReport) : String → TermStats :=
  rep.results.foldl pts_step (fun _ => ⟨0, 0, 0⟩)

/-- `sum(1 for r in rs if r.status_code in (429, 403))`, the limited count
used by the ramp and comparison tests. -/
def count_limited (rs : List RequestResult) : ℕ :=
  rs.countP (fun r => r.status_code = 429 ∨ r.status_code = 403)

/-- Per-iteration environment of a sequential (paced) loop: the network's
behaviour for the call, `time.time()` at call issue, and the
`time.perf_counter()` elapsed time of the iteration body measured from
loop entry. -/
structure IterEnv where
  net : NetResult
  ts : ℚ
  elapsed : ℚ
deriving DecidableEq

/-- One iteration of a paced loop: the recorded outcome and the computed
sleep duration `max(0, interval - elapsed)` (the code sleeps exactly when
this is positive). -/
structure IterRecord where
  result : RequestResult
  sleep_time : ℚ
deriving DecidableEq

/-- `run_sustained_test(config, rps, duration_secs)`: the Pacer.
`interval = 1.0 / rps`, `total = int(rps * duration_secs)`; iteration `i`
sends request `i` (no term override) and then sleeps
`max(0, interval - elapsed_i)`. -/
def run_sustained_test (cfg_term : String) (env : ℕ → IterEnv)
    (rps duration_secs : ℚ) : List IterRecord :=
  let interval := 1 / rps
  let total := (pyInt (rps * duration_secs)).toNat
  (List.range total).map (fun i =>
    { result := send_request cfg_term (env i).net (env i).ts none,
      sleep_time := max 0 (interval - (env i).elapsed) })

/-- `run_sustained_test` with Python's division-by-zero behaviour made
explicit: `interval = 1.0 / rps` raises `ZeroDivisionError` when
`rps == 0`, before any request is issued; any other rate runs the loop. -/
def run_sustained_test_checked (cfg_term : String) (env : ℕ → IterEnv)
    (rps duration_secs : ℚ) : Except String (List IterRecord) :=
  if rps = 0 then .error "ZeroDivisionError: float division by zero"
  else .ok (run_sustained_test cfg_term env rps duration_secs)

/-- Round-robin key selection `terms[i % len(terms)]` used by
`run_unique_terms_test` and phase 2 of `run_same_vs_unique_test`. -/
def keypool_next (terms : List String) (i : ℕ) : String :=
  terms.getD (i % terms.length) ""

/-- The `small` term pool. -/
def TERM_POOL_small : List String :=
  ["bill tracker", "weather app", "fitness coach", "photo editor",
   "music player"]

/-- The `medium` term pool. -/
def TERM_POOL_medium : List String :=
  TERM_POOL_small ++
  ["todo list", "vpn proxy", "calorie counter", "sleep tracker",
   "meditation app", "budget planner", "qr scanner", "pdf reader",
   "video editor", "language learn"]

/-- The `large` term pool. -/
def TERM_POOL_large : List String :=
  TERM_POOL_medium ++
  ["password manager", "note taking", "file manager", "screen recorder",
   "email client", "calendar app", "alarm clock", "tip calculator",
   "unit converter", "voice recorder", "flashlight app", "compass app",
   "level tool", "white noise", "habit tracker"]

/-- `run_unique_terms_test(config, rps, duration_secs, pool_name)`:
a Pacer loop where request `i` overrides the term with
`terms[i % len(terms)]`. -/
def run_unique_terms_test (cfg_term : String) (env : ℕ → IterEnv)
    (rps duration_secs : ℚ) (terms : List String) : List IterRecord :=
  let interval := 1 / rps
  let total := (pyInt (rps * duration_secs)).toNat
  (List.range total).map (fun i =>
    { result := send_request cfg_term (env i).net (env i).ts
        (some (keypool_next terms i)),
      sleep_time := max 0 (interval - (env i).elapsed) })

/-- `run_same_vs_unique_test(config, num_each, rps)`: phase 1 sends
`num_each` requests with the fixed term `"bill tracker"`, phase 2 sends
`num_each` requests rotating through the large pool; the classification is
computed from the two phases' limited counts. Returns the two phase result
lists and the printed classification (if any). -/
def run_same_vs_unique_test (cfg_term : String) (env1 env2 : ℕ → IterEnv)
    (num_each : ℕ) :
    List RequestResult × List RequestResult × Option Classification :=
  let same_results := (List.range num_each).map (fun i =>
    send_request cfg_term (env1 i).net (env1 i).ts (some "bill tracker"))
  let unique_results := (List.range num_each).map (fun i =>
    send_request cfg_term (env2 i).net (env2 i).ts
      (some (keypool_next TERM_POOL_large i)))
  (same_results, unique_results,
    classify_same_vs_unique (count_limited same_results)
      (count_limited unique_results))

/-- One ramp step at rate `current_rps`: `step_requests =
int(current_rps * step_duration)` sequential requests (no term override);
`env step i` is the environment of request `i` of step number `step`
(0-based). Only the outcomes matter for the ramp decision, so the computed
sleep times are not collected here. -/
def ramp_step (cfg_term : String) (env : ℕ → ℕ → IterEnv) (step : ℕ)
    (current_rps step_duration : ℚ) : List RequestResult :=
  (List.range (pyInt (current_rps * step_duration)).toNat).map (fun i =>
    send_request cfg_term (env step i).net (env step i).ts none)

/-- `limit_pct = limited_in_step / step_requests * 100 if step_requests
else 0` over the outcomes of one step. -/
def step_limit_pct (outs : List RequestResult) : ℚ :=
  if outs.length = 0 then 0
  else (count_limited outs : ℚ) / (outs.length : ℚ) * 100

/-- Outcome of a ramp run: the cumulative outcome list, the rates of the
steps that were executed (in order), and the final value of
`rate_limit_detected` (`true` = the Detected terminal state, `false` = the
Exhausted terminal state: the rate ceiling was passed without detection). -/
structure RampReport where
  results : List RequestResult
  rates : List ℚ
  detected : Bool
deriving DecidableEq

/-- The `while current_rps <= max_rps and not rate_limit_detected` loop of
`run_ramp_test`, written with a fuel argument (the source loop terminates
because `current_rps` strictly increases by `step_size > 0`; `ramp_fuel`
below provides enough fuel for every iteration the source performs).
`step` counts completed steps, so `current_rps` equals
`step_size * (step + 1)`. -/
def ramp_loop (cfg_term : String) (env : ℕ → ℕ → IterEnv)
    (max_rps step_duration step_size : ℚ) :
    ℕ → ℚ → ℕ → RampReport
  | 0, _, _ => ⟨[], [], false⟩
  | fuel + 1, current_rps, step =>
    if current_rps ≤ max_rps then
      let outs := ramp_step cfg_term env step current_rps step_duration
      if 20 < step_limit_pct outs then
        ⟨outs, [current_rps], true⟩
      else
        let rest := ramp_loop cfg_term env max_rps step_duration step_size
          fuel (current_rps + step_size) (step + 1)
        ⟨outs ++ rest.results, current_rps :: rest.rates, rest.detected⟩
    else ⟨[], [], false⟩

/-- Number of body iterations the source loop performs when no limit is
detected: steps run at rates `step_size * k` for `k = 1, 2, ...` while the
rate stays `≤ max_rps`, i.e. `⌊max_rps / step_size⌋` steps (0 when the
quotient is negative). One extra unit of fuel covers the final loop-guard
evaluation. -/
def ramp_step_count (max_rps step_size : ℚ) : ℕ := (⌊max_rps / step_size⌋).toNat

/-- `run_ramp_test(config, max_rps, step_duration, step_size)`. -/
def run_ramp_test (cfg_term : String) (env : ℕ → ℕ → IterEnv)
    (max_rps step_duration step_size : ℚ) : RampReport :=
  ramp_loop cfg_term env max_rps step_duration step_size
    (ramp_step_count max_rps step_size + 1) step_size 0

/-- Does step number `k` (0-based, rate `step_size * (k + 1)`) trip the
ramp's 20% detection threshold? -/
def ramp_trips (cfg_term : String) (env : ℕ → ℕ → IterEnv)
    (step_duration step_size : ℚ) (k : ℕ) : Prop :=
  20 < step_limit_pct
    (ramp_step cfg_term env k (step_size * (k + 1)) step_duration)

instance (cfg_term : String) (env : ℕ → ℕ → IterEnv)
    (step_duration step_size : ℚ) (k : ℕ) :
    Decidable (ramp_trips cfg_term env step_duration step_size k) := by
  unfold ramp_trips; infer_instance

/-- `LOOKUP_BATCH_SIZE` of `appstore_search_rankings.py`. -/
def LOOKUP_BATCH_SIZE : ℕ := 150

/-- One record of the iTunes Lookup response's `results` array, restricted
to the fields `lookup_app_metadata` reads. `trackId` is already the
stringified `str(result.get("trackId", ""))`. -/
structure LookupResult where
  trackId : String
  trackName : String
  bundleId : String
  artistName : String
  formattedPrice : String
  primaryGenreName : String
  averageUserRating : Option ℚ
  userRatingCount : Option ℤ
deriving DecidableEq

/-- The metadata entry `lookup_app_metadata` stores per track id. -/
structure LookupEntry where
  name : String
  bundle_id : String
  developer : String
  price : String
  genre : String
  rating : Option ℚ
  rating_count : Option ℤ
deriving DecidableEq

/-- The entry built from one iTunes result record. -/
def entry_of_result (r : LookupResult) : LookupEntry :=
  ⟨r.trackName, r.bundleId, r.artistName, r.formattedPrice,
   r.primaryGenreName, r.averageUserRating, r.userRatingCount⟩

/-- `app_ids[i:i+LOOKUP_BATCH_SIZE] for i in range(0, len(app_ids),
LOOKUP_BATCH_SIZE)`: the batches of ids, in order. -/
def lookup_batches (app_ids : List String) : List (List String) :=
  (List.range ((app_ids.length + LOOKUP_BATCH_SIZE - 1) / LOOKUP_BATCH_SIZE)).map
    (fun j => (app_ids.drop (j * LOOKUP_BATCH_SIZE)).take LOOKUP_BATCH_SIZE)

/-- `for result in data.get("results", []): metadata[tid] = {...}` —
store every record of a successful batch into the metadata mapping
(later records override earlier ones, as for a Python dict). -/
def store_batch_results (m : String → Option LookupEntry)
    (results : List LookupResult) : String → Option LookupEntry :=
  results.foldl
    (fun m r => fun tid =>
      if tid = r.trackId then some (entry_of_result r) else m tid)
    m

/-- `lookup_app_metadata(app_ids, country)`: iterate the batches in order;
`fetch j batch` models the urlopen + JSON decode of the `j`-th batch call
(`Except.error` is a raised `HTTPError`/`URLError`, which the code catches,
reports on stderr and skips with `continue`). -/
def lookup_app_metadata
    (fetch : ℕ → List String → Except String (List LookupResult))
    (app_ids : List String) : String → Option LookupEntry :=
  (lookup_batches app_ids).enum.foldl
    (fun m p =>
      match fetch p.1 p.2 with
      | .error _ => m
      | .ok results => store_batch_results m results)
    (fun _ => none)

/-- The mapping obtained by storing, in order, the results of exactly the
batches whose fetch succeeded. -/
def lookup_from_successes (batches : List (Except String (List LookupResult))) :
    String → Option LookupEntry :=
  (batches.filterMap Except.toOption).foldl store_batch_results (fun _ => none)

/-- A minimal recorded outcome for building concrete reports (successful
response, no rate-limit headers, empty body). -/
def mk_result (t : String) (sc : ℕ) : RequestResult :=
  { status_code := sc, latency_ms := 1, timestamp := 0, headers := [],
    term := t, error := none, body_preview := [] }

/-- Concrete result pool: 3 outcomes for key `"a"` (2 success, 1 limited)
and 2 outcomes for key `"b"` (2 success), interleaved. -/
def example_results : List RequestResult :=
  [mk_result "a" 200, mk_result "b" 200, mk_result "a" 429,
   mk_result "b" 200, mk_result "a" 200]

/-- Helper: `pyInt` of a nonpositive rational truncates to a nonpositive
integer, so its `toNat` is zero. -/
theorem pyInt_toNat_eq_zero {q : ℚ} (h : q ≤ 0) : (pyInt q).toNat = 0 := by
  unfold pyInt
  split_ifs with h0
  · have hq : q = 0 := le_antisymm h h0
    simp [hq]
  · have hc : ⌈q⌉ ≤ 0 := Int.ceil_le.mpr (by exact_mod_cast h)
    omega

/-- Helper: `pyInt` of a nonnegative rational is its floor. -/
theorem pyInt_of_nonneg {q : ℚ} (h : 0 ≤ q) : pyInt q = ⌊q⌋ := by
  unfold pyInt
  simp [h]

/-- Claim C1: the comparison classification is a pure function of the two
phase limited counts; it is PerKeyLimit exactly when `uniqueLimited = 0`
and `sameLimited > 0`, HybridLimit exactly when both are positive and
`uniqueLimited < sameLimited / 2`, PerClientLimit exactly when both are
positive and `uniqueLimited ≥ sameLimited / 2`, and Inconclusive exactly
when both are zero. -/
theorem classify_same_vs_unique_spec (s u : ℕ) :
    (classify_same_vs_unique s u = some .PerKeyLimit ↔ u = 0 ∧ 0 < s)
    ∧ (classify_same_vs_unique s u = some .HybridLimit ↔
        0 < u ∧ 0 < s ∧ (u : ℚ) < (s : ℚ) / 2)
    ∧ (classify_same_vs_unique s u = some .PerClientLimit ↔
        0 < u ∧ 0 < s ∧ (s : ℚ) / 2 ≤ (u : ℚ))
    ∧ (classify_same_vs_unique s u = some .Inconclusive ↔ u = 0 ∧ s = 0) := by
  have hhalf : (s : ℚ) * 0.5 = (s : ℚ) / 2 := by
    rw [show (0.5 : ℚ) = 1 / 2 by norm_num]; ring
  unfold classify_same_vs_unique
  rw [hhalf]
  split_ifs with h1 h2 h3 h4 <;>
    push_neg at * <;>
    refine ⟨?_, ?_, ?_, ?_⟩ <;>
    simp_all <;>
    omega

/-- Witness for C1: the four worked examples of the spec, obtained from
`classify_same_vs_unique_spec` at concrete counts. -/
theorem classify_same_vs_unique_spec_witness :
    classify_same_vs_unique 8 0 = some .PerKeyLimit
    ∧ classify_same_vs_unique 9 2 = some .HybridLimit
    ∧ classify_same_vs_unique 9 7 = some .PerClientLimit
    ∧ classify_same_vs_unique 0 0 = some .Inconclusive :=
  ⟨(classify_same_vs_unique_spec 8 0).1.mpr (by norm_num),
   (classify_same_vs_unique_spec 9 2).2.1.mpr (by norm_num),
   (classify_same_vs_unique_spec 9 7).2.2.1.mpr (by norm_num),
   (classify_same_vs_unique_spec 0 0).2.2.2.mpr (by norm_num)⟩

/-- Claim C10: when only the rotating-key phase was limited
(`sameLimited = 0`, `uniqueLimited > 0`) none of the four classification
branches applies and the comparison emits no classification. -/
theorem classify_same_vs_unique_unique_only_none (s u : ℕ) (hs : s = 0)
    (hu : 0 < u) : classify_same_vs_unique s u = none := by
  subst hs
  unfold classify_same_vs_unique
  split_ifs with h1 h2 h3 <;> simp_all

/-- Witness for C10: at `sameLimited = 0`, `uniqueLimited = 3` the
comparison emits no classification. -/
theorem classify_same_vs_unique_unique_only_none_witness :
    (0 : ℕ) < 3 ∧ classify_same_vs_unique 0 3 = none :=
  ⟨by norm_num, classify_same_vs_unique_unique_only_none 0 3 rfl (by norm_num)⟩

/-- Claim C4: assuming a received response carries a valid HTTP status
(`≥ 100`, as any status parsed from a status line is), every outcome of
`send_request` has `error` present iff `status_code = 0`, has zero latency
whenever `error` is present, and every call attempt yields an outcome
(`send_request` is total: exceptions are converted, never propagated). -/
theorem send_request_outcome_invariant (cfg_term : String) (net : NetResult)
    (ts : ℚ) (term : Option String)
    (hvalid : ∀ sc hdrs text lat, net = .response sc hdrs text lat → 100 ≤ sc) :
    ((send_request cfg_term net ts term).error.isSome ↔
      (send_request cfg_term net ts term).status_code = 0)
    ∧ ((send_request cfg_term net ts term).error.isSome →
      (send_request cfg_term net ts term).latency_ms = 0)
    ∧ ∃ out, send_request cfg_term net ts term = out := by
  cases net with
  | failure e => simp [send_request]
  | response sc hdrs text lat =>
    have h := hvalid sc hdrs text lat rfl
    simp [send_request]
    omega

/-- Witness for C4: a received 404 response yields an outcome with no
error, and the invariant holds for it. -/
theorem send_request_outcome_invariant_witness :
    (∀ sc hdrs text lat,
      NetResult.response 404 [] [] 7 = NetResult.response sc hdrs text lat →
        100 ≤ sc)
    ∧ (((send_request "t" (.response 404 [] [] 7) 0 none).error.isSome ↔
        (send_request "t" (.response 404 [] [] 7) 0 none).status_code = 0)
      ∧ ((send_request "t" (.response 404 [] [] 7) 0 none).error.isSome →
        (send_request "t" (.response 404 [] [] 7) 0 none).latency_ms = 0)
      ∧ ∃ out, send_request "t" (.response 404 [] [] 7) 0 none = out) := by
  have hv : ∀ sc hdrs text lat,
      NetResult.response 404 [] [] 7 = NetResult.response sc hdrs text lat →
        100 ≤ sc := by
    intro sc hdrs text lat h
    cases h
    norm_num
  exact ⟨hv, send_request_outcome_invariant "t" (.response 404 [] [] 7) 0 none hv⟩

/-- Counterexample to claim C5 as stated: a received `204 No Content`
response (a 2xx status) with body `"x"` produces an outcome whose
`body_preview` is populated, because the code tests `status_code != 200`,
not membership in the 2xx range. -/
theorem send_request_body_preview_counterexample :
    200 ≤ (send_request "t" (.response 204 [] ['x'] 1) 0 none).status_code
    ∧ (send_request "t" (.response 204 [] ['x'] 1) 0 none).status_code < 300
    ∧ (send_request "t" (.response 204 [] ['x'] 1) 0 none).body_preview ≠ [] := by
  refine ⟨?_, ?_, ?_⟩ <;> decide

/-- Claim C5 (amended): `body_preview` is populated only when
`status_code ≠ 200`: it is empty for status 200, it equals the first 200
characters of the body otherwise, and it never exceeds 200 characters. -/
theorem send_request_body_preview_amended (cfg_term : String) (sc : ℕ)
    (hdrs : List (String × String)) (text : List Char) (lat ts : ℚ)
    (term : Option String) :
    (sc = 200 →
      (send_request cfg_term (.response sc hdrs text lat) ts term).body_preview = [])
    ∧ ((send_request cfg_term (.response sc hdrs text lat) ts term).body_preview ≠ [] →
      sc ≠ 200)
    ∧ (sc ≠ 200 →
      (send_request cfg_term (.response sc hdrs text lat) ts term).body_preview =
        text.take 200)
    ∧ (send_request cfg_term (.response sc hdrs text lat) ts term).body_preview.length
        ≤ 200 := by
  by_cases h : sc = 200 <;> simp [send_request, h]

/-- Witness for C5 (amended): the amended statement at the concrete 204
response used in the counterexample. -/
theorem send_request_body_preview_amended_witness :
    ((204 : ℕ) = 200 →
      (send_request "t" (.response 204 [] ['x'] 1) 0 none).body_preview = [])
    ∧ ((send_request "t" (.response 204 [] ['x'] 1) 0 none).body_preview ≠ [] →
      (204 : ℕ) ≠ 200)
    ∧ ((204 : ℕ) ≠ 200 →
      (send_request "t" (.response 204 [] ['x'] 1) 0 none).body_preview =
        ['x'].take 200)
    ∧ (send_request "t" (.response 204 [] ['x'] 1) 0 none).body_preview.length
        ≤ 200 :=
  send_request_body_preview_amended "t" 204 [] ['x'] 1 0 none

/-- Counterexample to claim C6 as stated: a sustained run invoked with the
invalid (negative) rate `-1` does not fail fast with a configuration
error — it completes normally, returning an empty run (zero requests),
because `int(rps * duration_secs)` is negative and the loop body never
executes. Only `rps = 0` aborts (with a `ZeroDivisionError`, not a
dedicated configuration check). -/
theorem run_sustained_config_counterexample :
    (-1 : ℚ) < 0
    ∧ run_sustained_test_checked "t" (fun _ => ⟨.failure "x", 0, 0⟩) (-1) 30
        = .ok [] := by
  constructor
  · norm_num
  · have hzero : (pyInt ((-30) : ℚ)).toNat = 0 :=
      pyInt_toNat_eq_zero (by norm_num)
    norm_num [run_sustained_test_checked, run_sustained_test]
    exact Int.toNat_eq_zero.mp hzero

/-- Claim C6 (amended): there is no configuration validation; only a zero
rate aborts before any request is issued (Python raises `ZeroDivisionError`
at `interval = 1.0 / rps`, before the loop), while a negative rate (with a
nonnegative duration) is accepted and completes having issued zero
requests. In both cases no traffic is sent. -/
theorem run_sustained_config_amended (cfg_term : String) (env : ℕ → IterEnv)
    (rps duration_secs : ℚ) :
    (rps = 0 → run_sustained_test_checked cfg_term env rps duration_secs
        = .error "ZeroDivisionError: float division by zero")
    ∧ (rps < 0 → 0 ≤ duration_secs →
        run_sustained_test_checked cfg_term env rps duration_secs = .ok []) := by
  constructor
  · intro h
    simp [run_sustained_test_checked, h]
  · intro hneg hd
    have hne : rps ≠ 0 := ne_of_lt hneg
    have hprod : rps * duration_secs ≤ 0 := mul_nonpos_of_nonpos_of_nonneg hneg.le hd
    have hzero : (pyInt (rps * duration_secs)).toNat = 0 := pyInt_toNat_eq_zero hprod
    simp [run_sustained_test_checked, hne, run_sustained_test, hzero]

/-- Witness for C6 (amended): at rate `-1` and duration `30` the checked
run returns an empty successful run; at rate `0` it returns the division
error. -/
theorem run_sustained_config_amended_witness :
    ((0 : ℚ) = 0 → run_sustained_test_checked "t" (fun _ => ⟨.failure "x", 0, 0⟩) 0 30
        = .error "ZeroDivisionError: float division by zero")
    ∧ ((-1 : ℚ) < 0 ∧ (0 : ℚ) ≤ 30
        ∧ run_sustained_test_checked "t" (fun _ => ⟨.failure "x", 0, 0⟩) (-1) 30
            = .ok []) :=
  ⟨fun h => (run_sustained_config_amended "t" (fun _ => ⟨.failure "x", 0, 0⟩) 0 30).1 h,
   by norm_num,
   by norm_num,
   (run_sustained_config_amended "t" (fun _ => ⟨.failure "x", 0, 0⟩) (-1) 30).2
     (by norm_num) (by norm_num)⟩

/-- Claim C2: for every rate `R > 0` and duration `D ≥ 0` a sustained
(Pacer) run issues exactly `⌊R * D⌋` requests; the `i`-th entry of the run
(issue order) is the outcome of call `i` followed by a computed sleep of
`max 0 (1/R - elapsed_i)`, where `elapsed_i` is measured from the entry of
iteration `i`. -/
theorem run_sustained_test_spec (cfg_term : String) (env : ℕ → IterEnv)
    (rps duration_secs : ℚ) (hr : 0 < rps) (hd : 0 ≤ duration_secs) :
    ((run_sustained_test cfg_term env rps duration_secs).length : ℤ)
        = ⌊rps * duration_secs⌋
    ∧ ∀ i, i < (run_sustained_test cfg_term env rps duration_secs).length →
        (run_sustained_test cfg_term env rps duration_secs)[i]?
          = some { result := send_request cfg_term (env i).net (env i).ts none,
                   sleep_time := max 0 (1 / rps - (env i).elapsed) } := by
  have hq : 0 ≤ rps * duration_secs := mul_nonneg hr.le hd
  have hfloor : 0 ≤ ⌊rps * duration_secs⌋ := Int.floor_nonneg.mpr hq
  constructor
  · simp [run_sustained_test, pyInt_of_nonneg hq, Int.toNat_of_nonneg hfloor]
  · intro i hi
    simp only [run_sustained_test, List.length_map, List.length_range] at hi
    simp [run_sustained_test, List.getElem?_map, List.getElem?_range, hi]

/-- Witness for C2: at rate 2 for 3 seconds against a network that always
fails, the run has exactly `⌊2 * 3⌋ = 6` entries with the stated shape. -/
theorem run_sustained_test_spec_witness :
    (0 : ℚ) < 2 ∧ (0 : ℚ) ≤ 3
    ∧ (((run_sustained_test "t" (fun _ => ⟨.failure "x", 5, 7⟩) 2 3).length : ℤ)
          = ⌊(2 : ℚ) * 3⌋
        ∧ ∀ i, i < (run_sustained_test "t" (fun _ => ⟨.failure "x", 5, 7⟩) 2 3).length →
            (run_sustained_test "t" (fun _ => ⟨.failure "x", 5, 7⟩) 2 3)[i]?
              = some { result := send_request "t"
                          (NetResult.failure "x") 5 none,
                       sleep_time := max 0 (1 / 2 - 7) }) := by
  refine ⟨by norm_num, by norm_num, ?_⟩
  exact run_sustained_test_spec "t" (fun _ => ⟨.failure "x", 5, 7⟩) 2 3
    (by norm_num) (by norm_num)

/-- Claim C8: for a non-empty key pool, the key selected for request `i` is
`keys[i % len(keys)]` — a pure function of the index, periodic with period
`len(keys)` — and every entry of a unique-terms run uses exactly that key
for its index. -/
theorem keypool_next_spec (terms : List String) (h : terms ≠ []) :
    (∀ i : ℕ, i % terms.length < terms.length)
    ∧ (∀ (i : ℕ) (hlt : i % terms.length < terms.length),
        keypool_next terms i = terms.get ⟨i % terms.length, hlt⟩)
    ∧ (∀ i : ℕ, keypool_next terms (i + terms.length) = keypool_next terms i)
    ∧ (∀ (cfg_term : String) (env : ℕ → IterEnv) (rps duration_secs : ℚ) (i : ℕ),
        i < (run_unique_terms_test cfg_term env rps duration_secs terms).length →
        (run_unique_terms_test cfg_term env rps duration_secs terms)[i]?
          = some { result := send_request cfg_term (env i).net (env i).ts
                      (some (keypool_next terms i)),
                   sleep_time := max 0 (1 / rps - (env i).elapsed) }) := by
  have hlen : 0 < terms.length := List.length_pos.mpr h
  refine ⟨fun i => Nat.mod_lt i hlen, ?_, ?_, ?_⟩
  · intro i hlt
    unfold keypool_next
    rw [List.getD_eq_getElem terms "" hlt, List.get_eq_getElem]
  · intro i
    unfold keypool_next
    rw [Nat.add_mod_right]
  · intro cfg_term env rps duration_secs i hi
    simp only [run_unique_terms_test, List.length_map, List.length_range] at hi
    simp [run_unique_terms_test, List.getElem?_map, List.getElem?_range, hi]

/-- Witness for C8: a concrete three-key pool; the pool rotation of the
run and the periodicity at that pool. -/
theorem keypool_next_spec_witness :
    (["a", "b", "c"] ≠ ([] : List String))
    ∧ ((∀ i : ℕ, i % (["a", "b", "c"] : List String).length
          < (["a", "b", "c"] : List String).length)
      ∧ (∀ (i : ℕ) (hlt : i % (["a", "b", "c"] : List String).length
            < (["a", "b", "c"] : List String).length),
          keypool_next ["a", "b", "c"] i
            = (["a", "b", "c"] : List String).get
                ⟨i % (["a", "b", "c"] : List String).length, hlt⟩)
      ∧ (∀ i : ℕ, keypool_next ["a", "b", "c"]
            (i + (["a", "b", "c"] : List String).length)
          = keypool_next ["a", "b", "c"] i)
      ∧ (∀ (cfg_term : String) (env : ℕ → IterEnv) (rps duration_secs : ℚ) (i : ℕ),
          i < (run_unique_terms_test cfg_term env rps duration_secs
                ["a", "b", "c"]).length →
          (run_unique_terms_test cfg_term env rps duration_secs ["a", "b", "c"])[i]?
            = some { result := send_request cfg_term (env i).net (env i).ts
                        (some (keypool_next ["a", "b", "c"] i)),
                     sleep_time := max 0 (1 / rps - (env i).elapsed) })) :=
  ⟨by decide, keypool_next_spec ["a", "b", "c"] (by decide)⟩

/-- Helper: the `per_term_stats` fold, started from any accumulator,
adds to each key's entry the three counts of the folded results. -/
theorem pts_foldl_eq (l : List RequestResult) (m : String → TermStats)
    (t : String) :
    (l.foldl pts_step m) t =
      ⟨(m t).success + l.countP (fun r =>
          decide (r.term = t ∧ 200 ≤ r.status_code ∧ r.status_code < 300)),
       (m t).limited + l.countP (fun r =>
          decide (r.term = t ∧ (r.status_code = 429 ∨ r.status_code = 403))),
       (m t).total + l.countP (fun r => decide (r.term = t))⟩ := by
  induction l generalizing m with
  | nil => simp
  | cons r l ih =>
    rw [List.foldl_cons, ih]
    by_cases ht : t = r.term
    · subst ht
      by_cases h2 : 200 ≤ r.status_code ∧ r.status_code < 300
      · have h3 : ¬(r.status_code = 429 ∨ r.status_code = 403) := by omega
        simp [pts_step, h2, h3, List.countP_cons, TermStats.mk.injEq]
        omega
      · by_cases h3 : r.status_code = 429 ∨ r.status_code = 403
        · simp [pts_step, h2, h3, List.countP_cons, TermStats.mk.injEq]
          omega
        · simp [pts_step, h2, h3, List.countP_cons, TermStats.mk.injEq]
          omega
    · have ht' : ¬(r.term = t) := fun hh => ht hh.symm
      simp [pts_step, ht, ht', List.countP_cons, TermStats.mk.injEq]

/-- Claim C7: the per-key breakdown is invariant under permutation of the
stored outcomes; for each key it reports success = count of 2xx outcomes
with that key, limited = count of 429/403 outcomes with that key, and
total = count of outcomes with that key; and on the concrete report with
3 outcomes for key `"a"` (2 success, 1 limited) and 2 for `"b"`
(2 success) it yields `a ↦ ⟨2, 1, 3⟩` and `b ↦ ⟨2, 0, 2⟩`. -/
theorem per_term_stats_spec :
    (∀ rep1 rep2 : TestReport, rep1.results.Perm rep2.results →
        rep1.per_term_stats = rep2.per_term_stats)
    ∧ (∀ (rep : TestReport) (t : String),
        rep.per_term_stats t =
          ⟨rep.results.countP (fun r =>
              decide (r.term = t ∧ 200 ≤ r.status_code ∧ r.status_code < 300)),
           rep.results.countP (fun r =>
              decide (r.term = t ∧ (r.status_code = 429 ∨ r.status_code = 403))),
           rep.results.countP (fun r => decide (r.term = t))⟩)
    ∧ (TestReport.per_term_stats ⟨example_results, 0, 0⟩ "a" = ⟨2, 1, 3⟩
        ∧ TestReport.per_term_stats ⟨example_results, 0, 0⟩ "b" = ⟨2, 0, 2⟩) := by
  have hchar : ∀ (rep : TestReport) (t : String),
      rep.per_term_stats t =
        ⟨rep.results.countP (fun r =>
            decide (r.term = t ∧ 200 ≤ r.status_code ∧ r.status_code < 300)),
         rep.results.countP (fun r =>
            decide (r.term = t ∧ (r.status_code = 429 ∨ r.status_code = 403))),
         rep.results.countP (fun r => decide (r.term = t))⟩ := by
    intro rep t
    have h := pts_foldl_eq rep.results (fun _ => ⟨0, 0, 0⟩) t
    simpa [TestReport.per_term_stats] using h
  refine ⟨?_, hchar, by decide, by decide⟩
  intro rep1 rep2 hperm
  funext t
  rw [hchar rep1 t, hchar rep2 t]
  rw [hperm.countP_eq, hperm.countP_eq, hperm.countP_eq]

/-- Witness for C7: exchanging two outcomes of a two-element report leaves
the per-key breakdown unchanged. -/
theorem per_term_stats_spec_witness :
    ([mk_result "a" 200, mk_result "b" 429].Perm
        [mk_result "b" 429, mk_result "a" 200])
    ∧ TestReport.per_term_stats ⟨[mk_result "a" 200, mk_result "b" 429], 0, 0⟩
        = TestReport.per_term_stats ⟨[mk_result "b" 429, mk_result "a" 200], 0, 0⟩ := by
  have hp : [mk_result "a" 200, mk_result "b" 429].Perm
      [mk_result "b" 429, mk_result "a" 200] :=
    List.Perm.swap (mk_result "b" 429) (mk_result "a" 200) []
  exact ⟨hp, per_term_stats_spec.1 ⟨[mk_result "a" 200, mk_result "b" 429], 0, 0⟩
    ⟨[mk_result "b" 429, mk_result "a" 200], 0, 0⟩ hp⟩

/-- Helper: folding indexed batches with the error-skipping match equals
folding the stored results of exactly the successful fetches. -/
theorem lookup_foldl_eq
    (fetch : ℕ → List String → Except String (List LookupResult))
    (ps : List (ℕ × List String)) (m : String → Option LookupEntry) :
    ps.foldl
      (fun m p =>
        match fetch p.1 p.2 with
        | .error _ => m
        | .ok results => store_batch_results m results) m
    = ((ps.map (fun p => fetch p.1 p.2)).filterMap Except.toOption).foldl
        store_batch_results m := by
  induction ps generalizing m with
  | nil => simp
  | cons p ps ih =>
    rw [List.foldl_cons, List.map_cons]
    cases hf : fetch p.1 p.2 with
    | error e => simp [hf, Except.toOption, ih]
    | ok results => simp [hf, Except.toOption, ih]

/-- Claim C9: a failing batch request does not abort the batched metadata
lookup — the returned mapping is exactly the one obtained by storing, in
order, the results of the batches whose fetch succeeded, skipping the
failed ones. -/
theorem lookup_app_metadata_skips_failed
    (fetch : ℕ → List String → Except String (List LookupResult))
    (app_ids : List String) :
    lookup_app_metadata fetch app_ids
      = lookup_from_successes
          ((lookup_batches app_ids).enum.map (fun p => fetch p.1 p.2)) := by
  unfold lookup_app_metadata lookup_from_successes
  exact lookup_foldl_eq fetch (lookup_batches app_ids).enum (fun _ => none)

/-- Helper: with a positive step size, the loop guard
`current_rps ≤ max_rps` at step `k` (rate `s * (k + 1)`) holds exactly for
the first `⌊max_rps / s⌋` steps. -/
theorem ramp_guard_iff {m s : ℚ} (hs : 0 < s) (k : ℕ) :
    s * ((k : ℚ) + 1) ≤ m ↔ k < ramp_step_count m s := by
  unfold ramp_step_count
  have h1 : s * ((k : ℚ) + 1) ≤ m ↔ ((k : ℚ) + 1) ≤ m / s := by
    rw [le_div_iff₀ hs, mul_comm]
  have h2 : (((k : ℤ) + 1) ≤ ⌊m / s⌋) ↔ ((k : ℚ) + 1) ≤ m / s := by
    rw [Int.le_floor]
    norm_cast
  rw [h1, ← h2]
  omega

/-- Helper: when none of the remaining in-range steps trips the 20%
threshold, the ramp loop executes all of them and terminates Exhausted
(`detected = false`). -/
theorem ramp_loop_exhausted (cfg_term : String) (env : ℕ → ℕ → IterEnv)
    {m d s : ℚ} (hs : 0 < s) :
    ∀ (fuel k : ℕ), ramp_step_count m s ≤ k + fuel →
      (∀ j, k ≤ j → j < ramp_step_count m s →
        ¬ ramp_trips cfg_term env d s j) →
      ramp_loop cfg_term env m d s fuel (s * ((k : ℚ) + 1)) k =
        ⟨((List.range' k (ramp_step_count m s - k)).map
            (fun j => ramp_step cfg_term env j (s * ((j : ℚ) + 1)) d)).flatten,
         (List.range' k (ramp_step_count m s - k)).map
            (fun j : ℕ => s * ((j : ℚ) + 1)),
         false⟩ := by
  intro fuel
  induction fuel with
  | zero =>
    intro k hK _
    have hk : ramp_step_count m s - k = 0 := by omega
    simp [ramp_loop, hk]
  | succ fuel ih =>
    intro k hK hnone
    by_cases hkK : k < ramp_step_count m s
    · have hguard : s * ((k : ℚ) + 1) ≤ m := (ramp_guard_iff hs k).mpr hkK
      have htripk : ¬ ramp_trips cfg_term env d s k := hnone k le_rfl hkK
      unfold ramp_trips at htripk
      have hnext : s * ((k : ℚ) + 1) + s = s * (((k + 1 : ℕ) : ℚ) + 1) := by
        push_cast; ring
      have hrest := ih (k + 1) (by omega)
        (fun j hj hjK => hnone j (by omega) hjK)
      have hKk : ramp_step_count m s - k
          = (ramp_step_count m s - (k + 1)) + 1 := by omega
      simp only [ramp_loop, if_pos hguard, if_neg htripk, hnext, hrest, hKk,
        List.range'_succ, List.map_cons, List.flatten_cons]
    · have hguard : ¬ s * ((k : ℚ) + 1) ≤ m :=
        fun hc => hkK ((ramp_guard_iff hs k).mp hc)
      have hk : ramp_step_count m s - k = 0 := by omega
      simp [ramp_loop, if_neg hguard, hk]

/-- Helper: if step `j` is the first in-range step to trip the 20%
threshold, the ramp loop stops right after step `j` with
`detected = true`. -/
theorem ramp_loop_detected (cfg_term : String) (env : ℕ → ℕ → IterEnv)
    {m d s : ℚ} (hs : 0 < s) :
    ∀ (fuel k j : ℕ), k ≤ j → j < ramp_step_count m s → j < k + fuel →
      (∀ i, k ≤ i → i < j → ¬ ramp_trips cfg_term env d s i) →
      ramp_trips cfg_term env d s j →
      ramp_loop cfg_term env m d s fuel (s * ((k : ℚ) + 1)) k =
        ⟨((List.range' k (j - k + 1)).map
            (fun i => ramp_step cfg_term env i (s * ((i : ℚ) + 1)) d)).flatten,
         (List.range' k (j - k + 1)).map (fun i : ℕ => s * ((i : ℚ) + 1)),
         true⟩ := by
  intro fuel
  induction fuel with
  | zero =>
    intro k j hkj hjK hfuel _ _
    omega
  | succ fuel ih =>
    intro k j hkj hjK hfuel hfirst htrip
    have hkK : k < ramp_step_count m s := by omega
    have hguard : s * ((k : ℚ) + 1) ≤ m := (ramp_guard_iff hs k).mpr hkK
    by_cases hkj' : k = j
    · subst hkj'
      unfold ramp_trips at htrip
      have hone : k - k + 1 = 1 := by omega
      simp only [ramp_loop, if_pos hguard, if_pos htrip, hone,
        List.range'_succ, List.range'_zero, List.map_cons, List.map_nil,
        List.flatten_cons, List.flatten_nil, List.append_nil]
    · have htripk : ¬ ramp_trips cfg_term env d s k :=
        hfirst k le_rfl (by omega)
      unfold ramp_trips at htripk
      have hnext : s * ((k : ℚ) + 1) + s = s * (((k + 1 : ℕ) : ℚ) + 1) := by
        push_cast; ring
      have hrest := ih (k + 1) j (by omega) hjK (by omega)
        (fun i hi hij => hfirst i (by omega) hij) htrip
      have hjk : j - k + 1 = (j - (k + 1) + 1) + 1 := by omega
      simp only [ramp_loop, if_pos hguard, if_neg htripk, hnext, hrest, hjk,
        List.range'_succ, List.map_cons, List.flatten_cons]

/-- Claim C3: the ramp run executes Pacer steps at rates `s, 2s, 3s, …`.
If none of the in-range steps has a limited fraction above 20%, it runs
exactly the steps whose rate is `≤ maxRate` (there are `⌊maxRate/s⌋` of
them) and ends in the distinct Exhausted outcome (`detected = false`);
if step `j` is the first step to exceed the threshold, the run stops
immediately after step `j` (`detected = true`, no further steps issued).
In both cases the report is the concatenation of all executed steps'
outcomes. -/
theorem run_ramp_test_spec (cfg_term : String) (env : ℕ → ℕ → IterEnv)
    (m d s : ℚ) (hs : 0 < s) :
    ((∀ k, k < ramp_step_count m s → ¬ ramp_trips cfg_term env d s k) →
      run_ramp_test cfg_term env m d s =
        ⟨((List.range (ramp_step_count m s)).map
            (fun j => ramp_step cfg_term env j (s * ((j : ℚ) + 1)) d)).flatten,
         (List.range (ramp_step_count m s)).map (fun j : ℕ => s * ((j : ℚ) + 1)),
         false⟩)
    ∧ (∀ j, j < ramp_step_count m s → ramp_trips cfg_term env d s j →
        (∀ i, i < j → ¬ ramp_trips cfg_term env d s i) →
        run_ramp_test cfg_term env m d s =
          ⟨((List.range (j + 1)).map
              (fun i => ramp_step cfg_term env i (s * ((i : ℚ) + 1)) d)).flatten,
           (List.range (j + 1)).map (fun i : ℕ => s * ((i : ℚ) + 1)),
           true⟩) := by
  have hstart : s * (((0 : ℕ) : ℚ) + 1) = s := by push_cast; ring
  constructor
  · intro hnone
    have h := ramp_loop_exhausted cfg_term env hs (ramp_step_count m s + 1) 0
      (by omega) (fun j _ hjK => hnone j hjK)
    rw [hstart, Nat.sub_zero] at h
    unfold run_ramp_test
    rw [h, List.range_eq_range']
  · intro j hjK htrip hfirst
    have h := ramp_loop_detected cfg_term env hs (ramp_step_count m s + 1) 0 j
      (Nat.zero_le j) hjK (by omega) (fun i _ hij => hfirst i hij) htrip
    rw [hstart, Nat.sub_zero] at h
    unfold run_ramp_test
    rw [h, List.range_eq_range']

/-- Helper: a step with no 429/403 outcome cannot trip the 20% threshold
(its limited percentage is 0, or the step is empty). -/
theorem not_trip_of_no_limited {outs : List RequestResult}
    (h : count_limited outs = 0) : ¬ 20 < step_limit_pct outs := by
  unfold step_limit_pct
  split_ifs with hlen
  · norm_num
  · rw [h]
    push_cast
    rw [zero_div, zero_mul]
    norm_num

/-- Helper: a ramp step against a network that always answers 200 records
no limited outcome. -/
theorem count_limited_ramp_step_all_200 (cfg_term : String) (k : ℕ)
    (r d : ℚ) :
    count_limited
      (ramp_step cfg_term (fun _ _ => ⟨.response 200 [] [] 1, 0, 0⟩) k r d)
      = 0 := by
  unfold count_limited ramp_step
  rw [List.countP_map, List.countP_eq_zero]
  intro a _
  simp [send_request]

/-- Witness for C3: against an all-200 network, a ramp with
`maxRate = 10`, `stepDuration = 1`, `stepSize = 2` ends Exhausted having
run exactly the in-range steps. -/
theorem run_ramp_test_spec_witness :
    (0 : ℚ) < 2
    ∧ run_ramp_test "t" (fun _ _ => ⟨.response 200 [] [] 1, 0, 0⟩) 10 1 2 =
        ⟨((List.range (ramp_step_count 10 2)).map
            (fun j => ramp_step "t" (fun _ _ => ⟨.response 200 [] [] 1, 0, 0⟩)
              j (2 * ((j : ℚ) + 1)) 1)).flatten,
         (List.range (ramp_step_count 10 2)).map (fun j : ℕ => 2 * ((j : ℚ) + 1)),
         false⟩ :=
  ⟨by norm_num,
   (run_ramp_test_spec "t" (fun _ _ => ⟨.response 200 [] [] 1, 0, 0⟩) 10 1 2
      (by norm_num)).1
     (fun k _ =>
       not_trip_of_no_limited (count_limited_ramp_step_all_200 "t" k _ 1))⟩
